import Mathlib

/- Shallow embedding of the clasp-gui repository: the clasp::Protocol message
router of include/clasp-gui/clasp.hpp, the clasp_gui::WebView queue, lifecycle
and guard logic of src/webview.cpp (the CHOC-backed build, the one with real
behaviour), and the CLAP GuiHelper size logic of src/clap/gui_helper.cpp.

Modelling conventions:
* C++ strings are `List Char`; std::string::find and friends are the
  executable functions below, with std::string::npos rendered as `Option.none`
  (where the source does arithmetic on npos, the enclosing npos guards make
  the branch unreachable, which the Option form collapses; noted per site).
* std::chrono::steady_clock time points are `Int` milliseconds, with the
  ambient clock passed as an explicit `now` argument; the constructor's
  `lastParamUpdate_.fill(time_point())` is the constant-zero function.
* C++ `float` parameter values and velocities are carried opaquely as `Int`:
  the code never computes with them, it only stores and forwards them, so the
  carrier type is irrelevant to every property proved here.
* Calls into the native webview (choc evaluateJavascript, platform embedding,
  script injection) are recorded as explicit action or event traces; each
  drained queue entry produces exactly one evaluateJavascript call whose text
  is a function of the entry, so traces are kept at per-entry granularity.
* Brace characters inside string literals are written with \x7b and \x7d
  escapes, and the single-quote character is built from its code point. -/

set_option autoImplicit false

namespace ClaspGui

/-- The double-quote character. -/
def quoteChar : Char := '"'

/-- The backslash character. -/
def backslashChar : Char := '\\'

/-- The single-quote character, built from its code point. -/
def squoteChar : Char := Char.ofNat 39

/-- Opening-brace character. -/
def lbraceChar : Char := Char.ofNat 123

/-- Closing-brace character. -/
def rbraceChar : Char := Char.ofNat 125

/-- The two-character string of an empty JSON object, the universal return
value of the `__clasp` binding. -/
def emptyObj : List Char := [lbraceChar, rbraceChar]

/-- std::string::find(char): index of the first occurrence, none for npos. -/
def findChar : List Char → Char → Option Nat
  | [], _ => none
  | c :: rest, t => if c = t then some 0 else (findChar rest t).map (· + 1)

/-- std::string::find(char, pos): first occurrence at index at least pos. -/
def findCharFrom (s : List Char) (t : Char) (pos : Nat) : Option Nat :=
  (findChar (s.drop pos) t).map (· + pos)

/-- std::string::find(const char*) from position 0: first index at which the
needle occurs as a substring. -/
def findSub : List Char → List Char → Option Nat
  | [], sub => if sub = [] then some 0 else none
  | c :: rest, sub =>
    if sub.isPrefixOf (c :: rest) then some 0 else (findSub rest sub).map (· + 1)

/-- The whitespace recognised by std::atoi (C-locale isspace). -/
def isAtoiSpace (c : Char) : Bool :=
  c = ' ' || c = '\t' || c = '\n' || c = '\x0b' || c = '\x0c' || c = '\r'

/-- Decimal accumulation of the leading digit run, as std::atoi does. -/
def digitsVal (s : List Char) : Nat :=
  (s.takeWhile Char.isDigit).foldl (fun acc c => acc * 10 + (c.toNat - 48)) 0

/-- std::atoi on the C string `s`: skip whitespace, accept one optional sign,
read the leading digits, 0 when there are none. -/
def atoi (s : List Char) : Int :=
  let t := s.dropWhile isAtoiSpace
  match t with
  | [] => 0
  | c :: rest =>
    if c = '-' then -(digitsVal rest : Int)
    else if c = '+' then (digitsVal rest : Int)
    else (digitsVal t : Int)

/-- The bracket-depth scan in the args extraction of Protocol::handleCall
(clasp.hpp:303-309): number of characters consumed from the position one past
the opening bracket until the depth counter reaches zero, or the string ends. -/
def scanDepth : List Char → Nat → Nat
  | [], _ => 0
  | c :: rest, depth =>
    let depth2 := if c = '[' then depth + 1 else if c = ']' then depth - 1 else depth
    if depth2 = 0 then 1 else 1 + scanDepth rest depth2

/-- The escape-decoding scan loop of Protocol::handleMessage
(clasp.hpp:229-243), accumulator style as in the source (`result += ...`):
stop at a double quote, decode a backslash followed by a quote or a backslash
to its second character, copy everything else through, a lone trailing
backslash included. -/
def scanLoop : List Char → List Char → List Char
  | [], acc => acc
  | [c], acc => if c = quoteChar then acc else acc ++ [c]
  | c :: next :: rest2, acc =>
    if c = quoteChar then acc
    else if c = backslashChar then
      if next = quoteChar ∨ next = backslashChar then scanLoop rest2 (acc ++ [next])
      else scanLoop (next :: rest2) (acc ++ [c])
    else scanLoop (next :: rest2) (acc ++ [c])
termination_by s _ => s.length
decreasing_by all_goals simp <;> omega

/-- Spec-side statement of the scan of claim C5: the text up to the next
double quote not consumed by a backslash escape, with the two-character
escapes for quote and backslash decoded and every other character, backslashes
included, copied through verbatim. -/
def scanSpec : List Char → List Char
  | [] => []
  | [c] => if c = quoteChar then [] else [c]
  | c :: next :: rest2 =>
    if c = quoteChar then []
    else if c = backslashChar then
      if next = quoteChar ∨ next = backslashChar then next :: scanSpec rest2
      else c :: scanSpec (next :: rest2)
    else c :: scanSpec (next :: rest2)
termination_by s => s.length
decreasing_by all_goals simp <;> omega

/-- Spec-side JSON string encoding restricted to the two escapes that claim C5
names: backslash and double quote; all other characters stand for themselves. -/
def encodeQB : List Char → List Char
  | [] => []
  | c :: rest =>
    (if c = quoteChar then [backslashChar, quoteChar]
     else if c = backslashChar then [backslashChar, backslashChar]
     else [c]) ++ encodeQB rest

/-- The message extraction of Protocol::handleMessage (clasp.hpp:226-244):
find the first double quote; when there is none the extracted message stays
empty; otherwise run the escape-decoding scan from the next character. -/
def extractMsg (argsJson : List Char) : List Char :=
  match findChar argsJson quoteChar with
  | none => []
  | some start => scanLoop (argsJson.drop (start + 1)) []

/-- The quoted-value extraction used for the "t" key (clasp.hpp:252-260) and
the "fn" key (clasp.hpp:276-284): find the key, the colon after it, the two
quotes after the colon, and take the text between the quotes; any failed
search leaves the result empty (npos propagation through the source's
`quoteStart != npos && quoteEnd != npos` guard). -/
def extractQuotedAfterKey (msg key : List Char) : List Char :=
  match findSub msg key with
  | none => []
  | some kPos =>
    match findCharFrom msg ':' kPos with
    | none => []
    | some colonPos =>
      match findCharFrom msg quoteChar colonPos with
      | none => []
      | some qs =>
        match findCharFrom msg quoteChar (qs + 1) with
        | none => []
        | some qe => (msg.drop (qs + 1)).take (qe - qs - 1)

/-- Protocol::escapeJson (clasp.hpp:377-388). -/
def escapeJson : List Char → List Char
  | [] => []
  | c :: rest =>
    (if c = quoteChar then [backslashChar, quoteChar]
     else if c = backslashChar then [backslashChar, backslashChar]
     else if c = '\n' then [backslashChar, 'n']
     else if c = '\r' then [backslashChar, 'r']
     else [c]) ++ escapeJson rest

/-- Protocol::escapeJs (clasp.hpp:364-375). -/
def escapeJs : List Char → List Char
  | [] => []
  | c :: rest =>
    (if c = squoteChar then [backslashChar, squoteChar]
     else if c = backslashChar then [backslashChar, backslashChar]
     else if c = '\n' then [backslashChar, 'n']
     else if c = '\r' then [backslashChar, 'r']
     else [c]) ++ escapeJs rest

/-- Queue entry of an individual parameter update (struct ParamUpdate, defined
identically in Protocol and in WebView). -/
structure ParamUpdate where
  id : Int
  value : Int
deriving DecidableEq

/-- Queue entry of a MIDI note event (struct NoteEvent, defined identically in
Protocol and in WebView). -/
structure NoteEvent where
  channel : Int
  key : Int
  velocity : Int
  isNoteOn : Bool
deriving DecidableEq

/-- Queue entry of a MIDI CC event (struct MidiCCEvent, defined identically in
Protocol and in WebView). -/
structure MidiCCEvent where
  channel : Int
  cc : Int
  value : Int
deriving DecidableEq

/-- One message delivered to the JavaScript side while draining the queues.
Each constructor corresponds to exactly one evaluateScript call whose text is
a fixed function of the event data (Protocol wraps a `__clasp_recv` JSON
message, WebView an `window.clasp.on...` call: the two sides differ only in
that text). -/
inductive JsEvent where
  | param (id value : Int)
  | bulkParams (ps : List (Int × Int))
  | noteOn (channel key velocity : Int)
  | noteOff (channel key : Int)
  | midiCC (channel cc value : Int)
deriving DecidableEq

/-- A registered onCall handler: on normal return `Except.ok` carries the
result JSON; a thrown std::exception is `Except.error` carrying e.what(). -/
def CallHandler := List Char → Except (List Char) (List Char)

/-- unordered_map::find on the handler map. -/
def lookupHandler : List (List Char × CallHandler) → List Char → Option CallHandler
  | [], _ => none
  | (k, h) :: rest, n => if k = n then some h else lookupHandler rest n

/-- unordered_map operator[] assignment on the handler map: replace the
existing entry of that key or append a new one. -/
def putHandler : List (List Char × CallHandler) → List Char → CallHandler → List (List Char × CallHandler)
  | [], n, h => [(n, h)]
  | (k, v) :: rest, n, h =>
    if k = n then (k, h) :: rest else (k, v) :: putHandler rest n h

/-- State of a clasp::Protocol object: the webview pointer's nullness, the
handler map and the four pending queues with the throttle data
(clasp.hpp:409-425). -/
structure ProtocolState where
  webviewPresent : Bool
  handlers : List (List Char × CallHandler)
  pendingParams : List ParamUpdate
  pendingBulkParams : List (Int × Int)
  pendingNotes : List NoteEvent
  pendingCCs : List MidiCCEvent
  lastParamUpdate : Int → Int
  updateInterval : Int

/-- The state built by the Protocol constructor (clasp.hpp:53-57): empty maps
and queues, every throttle timestamp at the clock epoch, the default update
interval of 16 milliseconds. -/
def ProtocolState.initial (webviewPresent : Bool) : ProtocolState :=
  { webviewPresent := webviewPresent
    handlers := []
    pendingParams := []
    pendingBulkParams := []
    pendingNotes := []
    pendingCCs := []
    lastParamUpdate := fun _ => 0
    updateInterval := 16 }

namespace Protocol

/-- Protocol::onCall (clasp.hpp:69-72). -/
def onCall (s : ProtocolState) (name : List Char) (h : CallHandler) : ProtocolState :=
  { s with handlers := putHandler s.handlers name h }

/-- Protocol::queueParamChange (clasp.hpp:78-90): for an id in [0, 256) the
update is dropped when less than updateInterval has elapsed since that id's
stored timestamp, and otherwise stamps the id with `now`; in every non-dropped
case the update is appended to the pending queue. -/
def queueParamChange (s : ProtocolState) (now : Int) (paramId : Int) (value : Int) : ProtocolState :=
  if 0 ≤ paramId ∧ paramId < 256 then
    if now - s.lastParamUpdate paramId < s.updateInterval then s
    else
      { s with
        lastParamUpdate := fun q => if q = paramId then now else s.lastParamUpdate q
        pendingParams := s.pendingParams ++ [⟨paramId, value⟩] }
  else { s with pendingParams := s.pendingParams ++ [⟨paramId, value⟩] }

/-- Protocol::queueBulkParamUpdate (clasp.hpp:96-99). -/
def queueBulkParamUpdate (s : ProtocolState) (params : List (Int × Int)) : ProtocolState :=
  { s with pendingBulkParams := s.pendingBulkParams ++ params }

/-- Protocol::queueNoteOn (clasp.hpp:105-108). -/
def queueNoteOn (s : ProtocolState) (channel key velocity : Int) : ProtocolState :=
  { s with pendingNotes := s.pendingNotes ++ [⟨channel, key, velocity, true⟩] }

/-- Protocol::queueNoteOff (clasp.hpp:114-117): pushed with velocity 0. -/
def queueNoteOff (s : ProtocolState) (channel key : Int) : ProtocolState :=
  { s with pendingNotes := s.pendingNotes ++ [⟨channel, key, 0, false⟩] }

/-- Protocol::queueMidiCC (clasp.hpp:123-126). -/
def queueMidiCC (s : ProtocolState) (channel cc value : Int) : ProtocolState :=
  { s with pendingCCs := s.pendingCCs ++ [⟨channel, cc, value⟩] }

/-- Protocol::processQueue (clasp.hpp:132-189): a null webview returns at once;
otherwise the four queues are swapped out empty and the drained entries are
sent, one sendToJs per individual param, one single "params" message holding
the whole bulk list when it is non-empty, one per note, one per CC. -/
def processQueue (s : ProtocolState) : ProtocolState × List JsEvent :=
  if !s.webviewPresent then (s, [])
  else
    ({ s with
        pendingParams := []
        pendingBulkParams := []
        pendingNotes := []
        pendingCCs := [] },
      s.pendingParams.map (fun p => JsEvent.param p.id p.value)
        ++ (if s.pendingBulkParams = [] then [] else [JsEvent.bulkParams s.pendingBulkParams])
        ++ s.pendingNotes.map (fun n =>
            if n.isNoteOn then JsEvent.noteOn n.channel n.key n.velocity
            else JsEvent.noteOff n.channel n.key)
        ++ s.pendingCCs.map (fun c => JsEvent.midiCC c.channel c.cc c.value))

/-- Protocol::setUpdateRateHz (clasp.hpp:202-206), integer division as in
`std::chrono::milliseconds(1000 / hz)`. -/
def setUpdateRateHz (s : ProtocolState) (hz : Int) : ProtocolState :=
  if 0 < hz ∧ hz ≤ 1000 then { s with updateInterval := 1000 / hz } else s

/-- The reply JSON built by Protocol::sendReply (clasp.hpp:339-346): id, then
either the escaped error string when it is non-empty, or the result text with
the empty result rendered as null. -/
def replyBody (callId : Int) (result err : List Char) : List Char :=
  "\x7b\"t\":\"reply\",\"id\":".data ++ (toString callId).data
    ++ (if err ≠ [] then ",\"error\":\"".data ++ escapeJson err ++ [quoteChar]
        else ",\"result\":".data ++ (if result = [] then "null".data else result))
    ++ [rbraceChar]

/-- Protocol::sendReply (clasp.hpp:338-350): the single script string passed
to WebView::evaluateScript for one reply. -/
def sendReply (callId : Int) (result err : List Char) : List Char :=
  "__clasp_recv(".data ++ [squoteChar] ++ escapeJs (replyBody callId result err)
    ++ [squoteChar] ++ ");".data

/-- The call-id extraction of Protocol::handleCall (clasp.hpp:287-294): find
"id", the colon after it, and atoi from the next character; 0 otherwise. -/
def extractCallId (msg : List Char) : Int :=
  match findSub msg "\"id\"".data with
  | none => 0
  | some idPos =>
    match findCharFrom msg ':' idPos with
    | none => 0
    | some colonPos => atoi (msg.drop (colonPos + 1))

/-- The args-array extraction of Protocol::handleCall (clasp.hpp:297-312):
find "args", the colon, the opening bracket, then take the depth-matched
bracket run (running to the end of the string when unbalanced); the default
is the empty array text. -/
def extractArgsArray (msg : List Char) : List Char :=
  match findSub msg "\"args\"".data with
  | none => "[]".data
  | some argsPos =>
    match findCharFrom msg ':' argsPos with
    | none => "[]".data
    | some colonPos =>
      match findCharFrom msg '[' colonPos with
      | none => "[]".data
      | some bs => (msg.drop bs).take (1 + scanDepth (msg.drop (bs + 1)) 1)

/-- Protocol::handleCall (clasp.hpp:273-336). Returns the unchanged state (the
function never writes a member), the string handed back to the binding, and
the list of scripts sent through WebView::evaluateScript. -/
def handleCall (s : ProtocolState) (msgJson : List Char) :
    ProtocolState × List Char × List (List Char) :=
  let fnName := extractQuotedAfterKey msgJson "\"fn\"".data
  let callId := extractCallId msgJson
  let argsArray := extractArgsArray msgJson
  match lookupHandler s.handlers fnName with
  | none => (s, emptyObj, [sendReply callId [] ("unknown function: ".data ++ fnName)])
  | some h =>
    match h argsArray with
    | Except.error e => (s, emptyObj, [sendReply callId [] e])
    | Except.ok result => (s, emptyObj, [sendReply callId result []])

/-- Protocol::handleMessage (clasp.hpp:218-271): extract the inner message,
return the empty object for an empty extraction, parse the "t" field, route
"call" to handleCall, swallow "msg" and everything else. -/
def handleMessage (s : ProtocolState) (argsJson : List Char) :
    ProtocolState × List Char × List (List Char) :=
  let msgJson := extractMsg argsJson
  if msgJson = [] then (s, emptyObj, [])
  else
    let msgType := extractQuotedAfterKey msgJson "\"t\"".data
    if msgType = "call".data then handleCall s msgJson
    else if msgType = "msg".data then (s, emptyObj, [])
    else (s, emptyObj, [])

end Protocol

/-- One binding registration requested from WebView::bind: the name and the
callback closure installed (Protocol::setupBinding passes the handleMessage
wrapper). -/
structure BindRequest where
  name : List Char
  callback : ProtocolState → List Char → ProtocolState × List Char × List (List Char)

/-- Protocol::setupBinding (clasp.hpp:209-216): with a null webview nothing is
registered; otherwise exactly one binding named __clasp whose callback runs
handleMessage. -/
def Protocol.setupBinding (webviewPresent : Bool) : List BindRequest :=
  if webviewPresent then [⟨"__clasp".data, Protocol.handleMessage⟩] else []

/-- The Protocol constructor (clasp.hpp:53-57): the initial state together
with the bind registrations issued against the webview. -/
def Protocol.construct (webviewPresent : Bool) : ProtocolState × List BindRequest :=
  (ProtocolState.initial webviewPresent, Protocol.setupBinding webviewPresent)

/-- The option block of a WebView (webview.h WebViewOptions). -/
structure WebViewOptions where
  enableDebugMode : Bool
  disableContextMenu : Bool
  enablePointerCaptureFix : Bool
  customInitScript : List Char
deriving DecidableEq

/-- One piece of the init script assembled by WebView::create
(webview.cpp:207-219); the long JavaScript literals of webview.cpp are
abstracted to tokens, their text being fixed constants of the source. -/
inductive ScriptPart where
  | defaultApi
  | contextMenuFix
  | pointerCaptureFix
  | custom (script : List Char)
deriving DecidableEq

/-- One observable native call performed by a WebView operation. -/
inductive WVAction where
  | addInitScript (parts : List ScriptPart)
  | removeWebView
  | embedWebView (parent handle : Int) (width height : Nat)
  | resizeWebView (handle : Int) (width height : Nat)
  | navigate (url : List Char)
  | setHtml (html : List Char)
  | evalJs (js : List Char)
  | addBinding (name : List Char)
deriving DecidableEq

/-- State of a clasp_gui::WebView in the CHOC-backed build: the Impl fields
(webview.cpp:155-159: the owned choc webview's existence, the parent window,
the created flag) plus the queue and throttle members of webview.h. The
native view pointer that getViewHandle would return is carried as
`viewHandle`. -/
structure WebViewState where
  implWebview : Bool
  created : Bool
  parentWindow : Option Int
  viewHandle : Int
  options : WebViewOptions
  pendingParams : List ParamUpdate
  pendingBulkParams : List (Int × Int)
  pendingNotes : List NoteEvent
  pendingCCs : List MidiCCEvent
  lastParamUpdate : Int → Int
  updateInterval : Int

/-- The state built by the WebView constructor (webview.cpp:161-164): no impl
webview, not created, no parent, epoch timestamps, 16 ms interval. -/
def WebViewState.initial (options : WebViewOptions) (viewHandle : Int) : WebViewState :=
  { implWebview := false
    created := false
    parentWindow := none
    viewHandle := viewHandle
    options := options
    pendingParams := []
    pendingBulkParams := []
    pendingNotes := []
    pendingCCs := []
    lastParamUpdate := fun _ => 0
    updateInterval := 16 }

namespace WebView

/-- The init script assembled by WebView::create (webview.cpp:207-219). -/
def buildInitScript (o : WebViewOptions) : List ScriptPart :=
  [ScriptPart.defaultApi]
    ++ (if o.disableContextMenu then [ScriptPart.contextMenuFix] else [])
    ++ (if o.enablePointerCaptureFix then [ScriptPart.pointerCaptureFix] else [])
    ++ (if o.customInitScript ≠ [] then [ScriptPart.custom o.customInitScript] else [])

/-- WebView::create (webview.cpp:197-225): already created returns true with
no effect; otherwise a fresh choc webview is constructed (std::make_unique
never yields null, so the null test after it is dead), the init script is
injected, and the created flag set. -/
def create (s : WebViewState) : Bool × WebViewState × List WVAction :=
  if s.created then (true, s, [])
  else
    (true,
     { s with implWebview := true, created := true },
     [WVAction.addInitScript (buildInitScript s.options)])

/-- WebView::destroy (webview.cpp:227-235): the platform removal runs only
when an impl webview exists; the parent association and created flag are
cleared unconditionally. -/
def destroy (s : WebViewState) : WebViewState × List WVAction :=
  ({ s with implWebview := false, parentWindow := none, created := false },
   if s.implWebview then [WVAction.removeWebView] else [])

/-- WebView::isCreated (webview.cpp:237-239). -/
def isCreated (s : WebViewState) : Bool := s.created

/-- WebView::setParent (webview.cpp:241-246); `parentHandle` is
`parent.handle`, none for a null native handle. -/
def setParent (s : WebViewState) (parentHandle : Option Int) : Bool × WebViewState :=
  if !s.implWebview ∨ parentHandle = none then (false, s)
  else (true, { s with parentWindow := parentHandle })

/-- WebView::setSize (webview.cpp:248-260). -/
def setSize (s : WebViewState) (width height : Nat) : Bool × WebViewState × List WVAction :=
  if !s.implWebview then (false, s, [])
  else
    match s.parentWindow with
    | some pw => (true, s, [WVAction.embedWebView pw s.viewHandle width height])
    | none => (true, s, [WVAction.resizeWebView s.viewHandle width height])

/-- WebView::show (webview.cpp:262-264); `show` is a Lean keyword, hence the
suffixed name. -/
def showView (s : WebViewState) : Bool × WebViewState := (s.created, s)

/-- WebView::hide (webview.cpp:266-268), named to match showView. -/
def hideView (s : WebViewState) : Bool × WebViewState := (s.created, s)

/-- WebView::getNativeHandle (webview.cpp:270-273). -/
def getNativeHandle (s : WebViewState) : Option Int :=
  if s.implWebview then some s.viewHandle else none

/-- WebView::navigate (webview.cpp:275-279). -/
def navigate (s : WebViewState) (url : List Char) : WebViewState × List WVAction :=
  if s.implWebview then (s, [WVAction.navigate url]) else (s, [])

/-- WebView::loadHtml (webview.cpp:281-285). -/
def loadHtml (s : WebViewState) (html : List Char) : WebViewState × List WVAction :=
  if s.implWebview then (s, [WVAction.setHtml html]) else (s, [])

/-- WebView::evaluateScript (webview.cpp:287-291). -/
def evaluateScript (s : WebViewState) (js : List Char) : WebViewState × List WVAction :=
  if s.implWebview then (s, [WVAction.evalJs js]) else (s, [])

/-- WebView::bind (webview.cpp:293-310): a missing impl webview returns
without registering; otherwise the callback is registered with the choc
webview under `name` (the choc-level value marshalling wrapper adds no
behaviour the claims mention). -/
def bind (s : WebViewState) (name : List Char) : WebViewState × List WVAction :=
  if !s.implWebview then (s, [])
  else (s, [WVAction.addBinding name])

/-- WebView::postMessage (webview.cpp:320-326), with the exact script text. -/
def postMessage (s : WebViewState) (type payload : List Char) : WebViewState × List WVAction :=
  if !s.implWebview then (s, [])
  else
    (s, [WVAction.evalJs
      ("if (window.clasp && window.clasp.onMessage) \x7b window.clasp.onMessage(".data
        ++ [squoteChar] ++ type ++ [squoteChar] ++ ", ".data ++ payload ++ "); \x7d".data)])

/-- WebView::queueParamUpdate (webview.cpp:328-340), the same throttle-then-
append logic as Protocol::queueParamChange. -/
def queueParamUpdate (s : WebViewState) (now : Int) (paramId : Int) (value : Int) : WebViewState :=
  if 0 ≤ paramId ∧ paramId < 256 then
    if now - s.lastParamUpdate paramId < s.updateInterval then s
    else
      { s with
        lastParamUpdate := fun q => if q = paramId then now else s.lastParamUpdate q
        pendingParams := s.pendingParams ++ [⟨paramId, value⟩] }
  else { s with pendingParams := s.pendingParams ++ [⟨paramId, value⟩] }

/-- WebView::queueBulkParamUpdate (webview.cpp:342-345). -/
def queueBulkParamUpdate (s : WebViewState) (params : List (Int × Int)) : WebViewState :=
  { s with pendingBulkParams := s.pendingBulkParams ++ params }

/-- WebView::queueNoteOn (webview.cpp:347-350). -/
def queueNoteOn (s : WebViewState) (channel key velocity : Int) : WebViewState :=
  { s with pendingNotes := s.pendingNotes ++ [⟨channel, key, velocity, true⟩] }

/-- WebView::queueNoteOff (webview.cpp:352-355): pushed with velocity 0. -/
def queueNoteOff (s : WebViewState) (channel key : Int) : WebViewState :=
  { s with pendingNotes := s.pendingNotes ++ [⟨channel, key, 0, false⟩] }

/-- WebView::queueMidiCC (webview.cpp:357-360). -/
def queueMidiCC (s : WebViewState) (channel cc value : Int) : WebViewState :=
  { s with pendingCCs := s.pendingCCs ++ [⟨channel, cc, value⟩] }

/-- WebView::processQueuedUpdates (webview.cpp:362-423): a missing impl
webview returns at once; otherwise the four queues are swapped out empty and
drained in the order individual params, one onParamsSync batch when the bulk
list is non-empty, notes, CCs, one evaluateJavascript per emitted event. -/
def processQueuedUpdates (s : WebViewState) : WebViewState × List JsEvent :=
  if !s.implWebview then (s, [])
  else
    ({ s with
        pendingParams := []
        pendingBulkParams := []
        pendingNotes := []
        pendingCCs := [] },
      s.pendingParams.map (fun p => JsEvent.param p.id p.value)
        ++ (if s.pendingBulkParams = [] then [] else [JsEvent.bulkParams s.pendingBulkParams])
        ++ s.pendingNotes.map (fun n =>
            if n.isNoteOn then JsEvent.noteOn n.channel n.key n.velocity
            else JsEvent.noteOff n.channel n.key)
        ++ s.pendingCCs.map (fun c => JsEvent.midiCC c.channel c.cc c.value))

/-- WebView::setUpdateRateHz (webview.cpp:425-429). -/
def setUpdateRateHz (s : WebViewState) (hz : Int) : WebViewState :=
  if 0 < hz ∧ hz ≤ 1000 then { s with updateInterval := 1000 / hz } else s

end WebView

/-- One call of the shared update-queue interface, as named by claim C3. The
`paramChange` constructor carries the clock value the call observes. -/
inductive QueueOp where
  | paramChange (now : Int) (paramId : Int) (value : Int)
  | bulk (params : List (Int × Int))
  | noteOn (channel key velocity : Int)
  | noteOff (channel key : Int)
  | midiCC (channel cc value : Int)
  | process

/-- Protocol's side of one queue-interface call. -/
def Protocol.step (s : ProtocolState) : QueueOp → ProtocolState × List JsEvent
  | QueueOp.paramChange now pid v => (Protocol.queueParamChange s now pid v, [])
  | QueueOp.bulk ps => (Protocol.queueBulkParamUpdate s ps, [])
  | QueueOp.noteOn ch k vel => (Protocol.queueNoteOn s ch k vel, [])
  | QueueOp.noteOff ch k => (Protocol.queueNoteOff s ch k, [])
  | QueueOp.midiCC ch cc v => (Protocol.queueMidiCC s ch cc v, [])
  | QueueOp.process => Protocol.processQueue s

/-- WebView's side of one queue-interface call. -/
def WebView.step (s : WebViewState) : QueueOp → WebViewState × List JsEvent
  | QueueOp.paramChange now pid v => (WebView.queueParamUpdate s now pid v, [])
  | QueueOp.bulk ps => (WebView.queueBulkParamUpdate s ps, [])
  | QueueOp.noteOn ch k vel => (WebView.queueNoteOn s ch k vel, [])
  | QueueOp.noteOff ch k => (WebView.queueNoteOff s ch k, [])
  | QueueOp.midiCC ch cc v => (WebView.queueMidiCC s ch cc v, [])
  | QueueOp.process => WebView.processQueuedUpdates s

/-- Protocol's run of a call sequence, concatenating the emitted events. -/
def Protocol.run (s : ProtocolState) : List QueueOp → ProtocolState × List JsEvent
  | [] => (s, [])
  | op :: ops =>
    let r := Protocol.step s op
    let rest := Protocol.run r.1 ops
    (rest.1, r.2 ++ rest.2)

/-- WebView's run of a call sequence, concatenating the emitted events. -/
def WebView.run (s : WebViewState) : List QueueOp → WebViewState × List JsEvent
  | [] => (s, [])
  | op :: ops =>
    let r := WebView.step s op
    let rest := WebView.run r.1 ops
    (rest.1, r.2 ++ rest.2)

/-- Correspondence between a Protocol state and a WebView state on the parts
the shared queue mechanism reads and writes: the drain guard and the queue
and throttle members. -/
def QueuesAgree (p : ProtocolState) (w : WebViewState) : Prop :=
  p.webviewPresent = w.implWebview
    ∧ p.pendingParams = w.pendingParams
    ∧ p.pendingBulkParams = w.pendingBulkParams
    ∧ p.pendingNotes = w.pendingNotes
    ∧ p.pendingCCs = w.pendingCCs
    ∧ p.lastParamUpdate = w.lastParamUpdate
    ∧ p.updateInterval = w.updateInterval

/-- State of a clasp_gui::clap::GuiHelper (gui_helper.h:48-58), the size
bookkeeping the CLAP adjustSize logic reads; uint32_t sizes are naturals. -/
structure GuiHelperState where
  width : Nat
  height : Nat
  minWidth : Nat
  minHeight : Nat
  maxWidth : Nat
  maxHeight : Nat
deriving DecidableEq

/-- The defaults of gui_helper.h: 800x600 default size, 200x150 minimum,
4096x4096 maximum. -/
def GuiHelperState.initial : GuiHelperState :=
  { width := 800, height := 600, minWidth := 200, minHeight := 150
    maxWidth := 4096, maxHeight := 4096 }

namespace GuiHelper

/-- GuiHelper::adjustSize (gui_helper.cpp:80-87): clamp below by the minima
first, then above by the maxima, and return true. -/
def adjustSize (g : GuiHelperState) (width height : Nat) : Bool × Nat × Nat :=
  let w1 := if width < g.minWidth then g.minWidth else width
  let h1 := if height < g.minHeight then g.minHeight else height
  let w2 := if w1 > g.maxWidth then g.maxWidth else w1
  let h2 := if h1 > g.maxHeight then g.maxHeight else h1
  (true, w2, h2)

/-- GuiHelper::setMinSize (gui_helper.cpp:160-163). -/
def setMinSize (g : GuiHelperState) (width height : Nat) : GuiHelperState :=
  { g with minWidth := width, minHeight := height }

/-- GuiHelper::setMaxSize (gui_helper.cpp:165-168). -/
def setMaxSize (g : GuiHelperState) (width height : Nat) : GuiHelperState :=
  { g with maxWidth := width, maxHeight := height }

end GuiHelper

/- Concrete fixtures used by witnesses and counterexamples. -/

/-- A fixed option block for concrete WebView states. -/
def fixtureOptions : WebViewOptions :=
  { enableDebugMode := false
    disableContextMenu := true
    enablePointerCaptureFix := true
    customInitScript := [] }

/-- A Protocol constructed with a null webview and one queued update. -/
def c1NullState : ProtocolState :=
  { ProtocolState.initial false with pendingParams := [⟨0, 0⟩] }

/-- A Protocol with a webview and one entry in each of the four queues. -/
def c1FullState : ProtocolState :=
  { ProtocolState.initial true with
      pendingParams := [⟨1, 2⟩]
      pendingBulkParams := [(3, 4)]
      pendingNotes := [⟨0, 60, 99, true⟩]
      pendingCCs := [⟨0, 7, 100⟩] }

/-- Protocol-side initial state of the C3 witness run. -/
def c3PState : ProtocolState := ProtocolState.initial true

/-- WebView-side initial state of the C3 witness run: a created webview. -/
def c3WState : WebViewState :=
  { WebViewState.initial fixtureOptions 0 with implWebview := true, created := true }

/-- Call sequence of the C3 witness run. -/
def c3Ops : List QueueOp :=
  [QueueOp.paramChange 100 1 7, QueueOp.noteOn 1 60 100, QueueOp.process]

/-- The inner message of the C4 witness: a call message. -/
def c4Msg : List Char := "\x7b\"t\":\"call\",\"fn\":\"g\",\"id\":2\x7d".data

/-- The binding argument of the C4 witness: the JSON array holding the
escaped call message as its single string element. -/
def c4Input : List Char :=
  "[\"\x7b\\\"t\\\":\\\"call\\\",\\\"fn\\\":\\\"g\\\",\\\"id\\\":2\x7d\"]".data

/-- A Protocol whose handler "f" throws an exception with an empty message. -/
def c6State : ProtocolState :=
  { ProtocolState.initial true with
      handlers := [("f".data, fun _ => Except.error [])] }

/-- A call message for the handler "f" with call id 1. -/
def c6Msg : List Char := "\x7b\"t\":\"call\",\"fn\":\"f\",\"id\":1\x7d".data

/-- A WebView in the created state. -/
def c7State : WebViewState :=
  { WebViewState.initial fixtureOptions 1 with implWebview := true, created := true }

/-- A WebView whose impl webview does not exist (fresh, never created). -/
def c8State : WebViewState := WebViewState.initial fixtureOptions 0

/- Helper lemmas. -/

theorem scanSpec_quote (l : List Char) : scanSpec (quoteChar :: l) = [] := by
  cases l <;> simp [scanSpec]

theorem scanSpec_cons_ord (c : Char) (hq : c ≠ quoteChar) (hb : c ≠ backslashChar)
    (l : List Char) : scanSpec (c :: l) = c :: scanSpec l := by
  cases l <;> simp [scanSpec, hq, hb]

theorem scanSpec_esc (next : Char) (h : next = quoteChar ∨ next = backslashChar)
    (l : List Char) : scanSpec (backslashChar :: next :: l) = next :: scanSpec l := by
  have hbq : ¬(backslashChar = quoteChar) := by decide
  rcases h with h | h <;> subst h <;> simp [scanSpec, hbq]

theorem scanLoop_append (s acc : List Char) : scanLoop s acc = acc ++ scanSpec s := by
  induction s, acc using scanLoop.induct
  all_goals simp_all [scanLoop, scanSpec]

theorem findChar_append (pre suf : List Char) (t : Char) (h : t ∉ pre) :
    findChar (pre ++ t :: suf) t = some pre.length := by
  induction pre with
  | nil => simp [findChar]
  | cons c cs ih =>
    simp only [List.mem_cons, not_or] at h
    obtain ⟨h1, h2⟩ := h
    have hc : ¬(c = t) := fun e => h1 e.symm
    simp [findChar, hc, ih h2]

theorem drop_append_cons (pre suf : List Char) (t : Char) :
    (pre ++ t :: suf).drop (pre.length + 1) = suf := by
  induction pre with
  | nil => simp
  | cons c cs ih => simp

theorem extractMsg_split (pre suf : List Char) (h : quoteChar ∉ pre) :
    extractMsg (pre ++ quoteChar :: suf) = scanSpec suf := by
  simp [extractMsg, findChar_append pre suf quoteChar h, drop_append_cons,
    scanLoop_append]

theorem scanSpec_encodeQB (cs rest : List Char) :
    scanSpec (encodeQB cs ++ quoteChar :: rest) = cs := by
  have hbq : ¬(backslashChar = quoteChar) := by decide
  induction cs with
  | nil => simpa [encodeQB] using scanSpec_quote rest
  | cons c cs ih =>
    by_cases hq : c = quoteChar
    · subst hq
      simpa [encodeQB, scanSpec_esc quoteChar (Or.inl rfl)] using ih
    · by_cases hb : c = backslashChar
      · subst hb
        simpa [encodeQB, hbq, scanSpec_esc backslashChar (Or.inr rfl)] using ih
      · simpa [encodeQB, hq, hb, scanSpec_cons_ord c hq hb] using ih

theorem handleCall_state (s : ProtocolState) (m : List Char) :
    (Protocol.handleCall s m).1 = s := by
  rcases hl : lookupHandler s.handlers (extractQuotedAfterKey m "\"fn\"".data) with _ | hd
  · simp [Protocol.handleCall, hl]
  · rcases hr : hd (Protocol.extractArgsArray m) with e | r <;>
      simp [Protocol.handleCall, hl, hr]

theorem handleCall_ret (s : ProtocolState) (m : List Char) :
    (Protocol.handleCall s m).2.1 = emptyObj := by
  rcases hl : lookupHandler s.handlers (extractQuotedAfterKey m "\"fn\"".data) with _ | hd
  · simp [Protocol.handleCall, hl]
  · rcases hr : hd (Protocol.extractArgsArray m) with e | r <;>
      simp [Protocol.handleCall, hl, hr]

/- Claim theorems. -/

/-- C5: the hand-rolled scanner of handleMessage extracts the inner message:
for every input containing a double quote (written here as any input split as
`pre ++ quote :: suf` with no quote in `pre`), the extracted message is
`scanSpec suf`, the text up to the next double quote not consumed by a
backslash escape, with the two-character escapes for quote and backslash
decoded and every other escape copied through verbatim; consequently, for
every argument that is a JSON array whose first element is a string whose
only escapes are those two (any `pre` without quotes, then the quote, then an
`encodeQB`-encoded string, then the closing quote and the array tail), the
extracted message equals the JSON-decoded first element. -/
theorem C5_scanner_extracts :
    (∀ pre suf : List Char, quoteChar ∉ pre →
      extractMsg (pre ++ quoteChar :: suf) = scanSpec suf)
    ∧ (∀ pre cs rest : List Char, quoteChar ∉ pre →
        extractMsg (pre ++ quoteChar :: (encodeQB cs ++ quoteChar :: rest)) = cs) :=
  ⟨fun pre suf h => extractMsg_split pre suf h,
   fun pre cs rest h => by rw [extractMsg_split pre _ h, scanSpec_encodeQB]⟩

/-- C5 witness: the scanner applied to the array text `["a\""]` (first
element encoding the two-character string `a"`) recovers exactly that
string. -/
theorem C5_witness :
    quoteChar ∉ ['['] ∧
      extractMsg (['['] ++ quoteChar :: (encodeQB ['a', quoteChar] ++ quoteChar :: [']']))
        = ['a', quoteChar] :=
  ⟨by decide, C5_scanner_extracts.2 ['['] ['a', quoteChar] [']'] (by decide)⟩

/-- C4: the Protocol is a router layered on WebView::bind: construction with
a non-null webview issues exactly one bind registration, named __clasp, whose
callback is handleMessage; handleMessage routes a message whose "t" field is
"call" to handleCall; and for every state and every input string the value
handed back to the binding is exactly the two-character string of the empty
JSON object. -/
theorem C4_binding_router (s : ProtocolState) (input : List Char) :
    (Protocol.setupBinding true).map BindRequest.name = ["__clasp".data]
    ∧ (∀ req ∈ Protocol.setupBinding true, req.callback = Protocol.handleMessage)
    ∧ (extractMsg input ≠ [] →
        extractQuotedAfterKey (extractMsg input) "\"t\"".data = "call".data →
        Protocol.handleMessage s input = Protocol.handleCall s (extractMsg input))
    ∧ (Protocol.handleMessage s input).2.1 = emptyObj := by
  refine ⟨by simp [Protocol.setupBinding], ?_, ?_, ?_⟩
  · intro req hreq
    simp [Protocol.setupBinding] at hreq
    rw [hreq]
  · intro hne ht
    simp [Protocol.handleMessage, hne, ht]
  · by_cases hne : extractMsg input = []
    · simp [Protocol.handleMessage, hne]
    · by_cases ht : extractQuotedAfterKey (extractMsg input) "\"t\"".data = "call".data
      · simp [Protocol.handleMessage, hne, ht, handleCall_ret]
      · by_cases hm : extractQuotedAfterKey (extractMsg input) "\"t\"".data = "msg".data <;>
          simp [Protocol.handleMessage, hne, ht, hm]

/-- C4 witness: on a concrete binding argument carrying a call message, the
extraction is non-empty, its type is "call", and handleMessage hands the
message to handleCall. -/
theorem C4_witness :
    extractMsg c4Input ≠ []
    ∧ extractQuotedAfterKey (extractMsg c4Input) "\"t\"".data = "call".data
    ∧ Protocol.handleMessage (ProtocolState.initial true) c4Input
        = Protocol.handleCall (ProtocolState.initial true) (extractMsg c4Input) := by
  have he : extractMsg c4Input = c4Msg := by
    simp [c4Input, c4Msg, extractMsg, findChar, scanLoop, quoteChar, backslashChar]
  refine ⟨by rw [he]; decide, by rw [he]; decide, ?_⟩
  exact (C4_binding_router (ProtocolState.initial true) c4Input).2.2.1
    (by rw [he]; decide) (by rw [he]; decide)

/-- C6 counterexample: the claim as stated is false. In `c6State` the handler
"f" throws a std::exception whose message is empty; handleCall then sends a
reply that carries no "error" field at all — the reply body is exactly the
result:null reply, because sendReply branches on the emptiness of the error
string, not on which path called it. -/
theorem C6_counterexample :
    (Protocol.handleCall c6State c6Msg).2.2 = [Protocol.sendReply 1 [] []]
    ∧ findSub (Protocol.replyBody 1 [] []) "\"error\"".data = none
    ∧ Protocol.replyBody 1 [] []
        = "\x7b\"t\":\"reply\",\"id\":1,\"result\":null\x7d".data := by
  refine ⟨by decide, by decide, by decide⟩

/-- C6 (amended): every message dispatched to handleCall produces exactly one
reply via evaluateScript: with no handler registered under the extracted "fn"
name the reply's error string is "unknown function: " followed by the name;
with a handler returning normally the reply carries the handler's result,
rendered as null when empty; with a handler throwing a std::exception the
reply is built from the exception message, which yields an "error" field
exactly when that message is non-empty (an empty message yields the
result:null reply instead, which is the amendment); in every case handleCall
returns the empty JSON object and the handler map is unchanged. -/
theorem C6_handleCall_single_reply (s : ProtocolState) (msg : List Char) :
    (Protocol.handleCall s msg).1 = s
    ∧ (Protocol.handleCall s msg).2.1 = emptyObj
    ∧ (Protocol.handleCall s msg).2.2.length = 1
    ∧ (lookupHandler s.handlers (extractQuotedAfterKey msg "\"fn\"".data) = none →
        (Protocol.handleCall s msg).2.2 =
          [Protocol.sendReply (Protocol.extractCallId msg) []
            ("unknown function: ".data ++ extractQuotedAfterKey msg "\"fn\"".data)])
    ∧ (∀ hd r, lookupHandler s.handlers (extractQuotedAfterKey msg "\"fn\"".data) = some hd →
        hd (Protocol.extractArgsArray msg) = Except.ok r →
        (Protocol.handleCall s msg).2.2 = [Protocol.sendReply (Protocol.extractCallId msg) r []])
    ∧ (∀ hd e, lookupHandler s.handlers (extractQuotedAfterKey msg "\"fn\"".data) = some hd →
        hd (Protocol.extractArgsArray msg) = Except.error e →
        (Protocol.handleCall s msg).2.2 = [Protocol.sendReply (Protocol.extractCallId msg) [] e])
    ∧ (∀ (cid : Int) (err : List Char), err ≠ [] →
        Protocol.replyBody cid [] err =
          "\x7b\"t\":\"reply\",\"id\":".data ++ (toString cid).data
            ++ ",\"error\":\"".data ++ escapeJson err ++ [quoteChar] ++ [rbraceChar])
    ∧ (∀ (cid : Int) (res : List Char), res ≠ [] →
        Protocol.replyBody cid res [] =
          "\x7b\"t\":\"reply\",\"id\":".data ++ (toString cid).data
            ++ ",\"result\":".data ++ res ++ [rbraceChar])
    ∧ (∀ cid : Int, Protocol.replyBody cid [] [] =
        "\x7b\"t\":\"reply\",\"id\":".data ++ (toString cid).data
          ++ ",\"result\":".data ++ "null".data ++ [rbraceChar]) := by
  refine ⟨handleCall_state s msg, handleCall_ret s msg, ?_, ?_, ?_, ?_, ?_, ?_, ?_⟩
  · rcases hl : lookupHandler s.handlers (extractQuotedAfterKey msg "\"fn\"".data) with _ | hd
    · simp [Protocol.handleCall, hl]
    · rcases hr : hd (Protocol.extractArgsArray msg) with e | r <;>
        simp [Protocol.handleCall, hl, hr]
  · intro hnone
    simp [Protocol.handleCall, hnone]
  · intro hd r hl hr
    simp [Protocol.handleCall, hl, hr]
  · intro hd e hl hr
    simp [Protocol.handleCall, hl, hr]
  · intro cid err hne
    simp [Protocol.replyBody, hne, List.append_assoc]
  · intro cid res hne
    simp [Protocol.replyBody, hne, List.append_assoc]
  · intro cid
    simp [Protocol.replyBody, List.append_assoc]

/-- C6 witness: with no handlers registered, a call message for "f" with id 1
produces exactly the unknown-function reply. -/
theorem C6_witness :
    lookupHandler (ProtocolState.initial true).handlers
        (extractQuotedAfterKey c6Msg "\"fn\"".data) = none
    ∧ (Protocol.handleCall (ProtocolState.initial true) c6Msg).2.2 =
        [Protocol.sendReply (Protocol.extractCallId c6Msg) []
          ("unknown function: ".data ++ extractQuotedAfterKey c6Msg "\"fn\"".data)] :=
  ⟨rfl, (C6_handleCall_single_reply (ProtocolState.initial true) c6Msg).2.2.2.1 rfl⟩

/-- C1 counterexample: the claim as stated quantifies over every Protocol
state, but a Protocol constructed with a null webview never drains: with one
queued parameter update, processQueue sends nothing and the pending queue is
still non-empty when it returns. -/
theorem C1_counterexample :
    (Protocol.processQueue c1NullState).1.pendingParams = [⟨0, 0⟩]
    ∧ (Protocol.processQueue c1NullState).1.pendingParams ≠ []
    ∧ (Protocol.processQueue c1NullState).2 = [] := by
  refine ⟨by decide, by decide, by decide⟩

/-- C1 (amended): for every Protocol state whose webview pointer is non-null,
processQueue drains the queues: every pending entry is sent exactly once, in
FIFO order within each queue (the whole bulk list travelling in one message),
in the fixed group order individual params, bulk params, notes, CCs — stated
as the trace being exactly the concatenation of the four queues' images — and
all four pending queues are empty when processQueue returns. -/
theorem C1_processQueue_drains (s : ProtocolState) (h : s.webviewPresent = true) :
    (Protocol.processQueue s).1.pendingParams = []
    ∧ (Protocol.processQueue s).1.pendingBulkParams = []
    ∧ (Protocol.processQueue s).1.pendingNotes = []
    ∧ (Protocol.processQueue s).1.pendingCCs = []
    ∧ (Protocol.processQueue s).2 =
        s.pendingParams.map (fun p => JsEvent.param p.id p.value)
          ++ (if s.pendingBulkParams = [] then [] else [JsEvent.bulkParams s.pendingBulkParams])
          ++ s.pendingNotes.map (fun n =>
              if n.isNoteOn then JsEvent.noteOn n.channel n.key n.velocity
              else JsEvent.noteOff n.channel n.key)
          ++ s.pendingCCs.map (fun c => JsEvent.midiCC c.channel c.cc c.value) := by
  simp [Protocol.processQueue, h]

/-- C1 witness: a state with one entry in each queue drains to the four
events in group order and leaves the individual-param queue empty. -/
theorem C1_witness :
    c1FullState.webviewPresent = true
    ∧ (Protocol.processQueue c1FullState).2 =
        [JsEvent.param 1 2, JsEvent.bulkParams [(3, 4)], JsEvent.noteOn 0 60 99,
         JsEvent.midiCC 0 7 100]
    ∧ (Protocol.processQueue c1FullState).1.pendingParams = [] := by
  have h := C1_processQueue_drains c1FullState rfl
  exact ⟨rfl, by rw [h.2.2.2.2]; decide, h.1⟩

/-- C2: per-parameter rate limiting. For every id in [0, 256) the update is
appended (and the id's timestamp set to now) exactly when at least
updateInterval has elapsed since the stored timestamp of that id's last
accepted update (the constructor stores the clock epoch); a rejected update
returns the state unchanged; an accepted update touches no other id's
timestamp, so distinct ids never affect each other's admission; the default
interval is 16 milliseconds. -/
theorem C2_queueParamChange_throttle (s : ProtocolState) (now pid v : Int)
    (h0 : 0 ≤ pid) (h1 : pid < 256) :
    (s.updateInterval ≤ now - s.lastParamUpdate pid →
      Protocol.queueParamChange s now pid v =
        { s with
            lastParamUpdate := fun q => if q = pid then now else s.lastParamUpdate q
            pendingParams := s.pendingParams ++ [⟨pid, v⟩] })
    ∧ (now - s.lastParamUpdate pid < s.updateInterval →
        Protocol.queueParamChange s now pid v = s)
    ∧ (∀ q, q ≠ pid →
        (Protocol.queueParamChange s now pid v).lastParamUpdate q = s.lastParamUpdate q)
    ∧ (ProtocolState.initial true).updateInterval = 16 := by
  have hg : 0 ≤ pid ∧ pid < 256 := ⟨h0, h1⟩
  refine ⟨fun hA => ?_, fun hR => ?_, fun q hq => ?_, rfl⟩
  · simp [Protocol.queueParamChange, hg, not_lt.mpr hA]
  · simp [Protocol.queueParamChange, hg, hR]
  · by_cases hi : now - s.lastParamUpdate pid < s.updateInterval
    · simp [Protocol.queueParamChange, hg, hi]
    · simp [Protocol.queueParamChange, hg, hi, hq]

/-- C2 witness: from the initial state (epoch timestamps, 16 ms interval) an
update for id 3 at time 20 is accepted and lands in the queue. -/
theorem C2_witness :
    (Protocol.queueParamChange (ProtocolState.initial true) 20 3 5).pendingParams
      = [⟨3, 5⟩] := by
  have h := C2_queueParamChange_throttle (ProtocolState.initial true) 20 3 5
    (by decide) (by decide)
  rw [h.1 (by decide)]
  decide

/-- C9: out-of-range parameter ids are never throttled: for every id that is
negative or at least 256, Protocol::queueParamChange and
WebView::queueParamUpdate append the update unconditionally, touching nothing
else — in particular no timestamp is read or written. -/
theorem C9_out_of_range_unthrottled (s : ProtocolState) (w : WebViewState)
    (now pid v : Int) (h : pid < 0 ∨ 256 ≤ pid) :
    Protocol.queueParamChange s now pid v
        = { s with pendingParams := s.pendingParams ++ [⟨pid, v⟩] }
    ∧ WebView.queueParamUpdate w now pid v
        = { w with pendingParams := w.pendingParams ++ [⟨pid, v⟩] } := by
  have hg : ¬(0 ≤ pid ∧ pid < 256) := by omega
  constructor <;> simp [Protocol.queueParamChange, WebView.queueParamUpdate, hg]

/-- C9 witness: id 300 is appended straight through from the initial states,
at two times closer together than the update interval. -/
theorem C9_witness :
    ((300 : Int) < 0 ∨ (256 : Int) ≤ 300)
    ∧ Protocol.queueParamChange (ProtocolState.initial true) 0 300 1
        = { ProtocolState.initial true with pendingParams := [⟨300, 1⟩] } :=
  ⟨by decide,
   (C9_out_of_range_unthrottled (ProtocolState.initial true) c8State 0 300 1
      (by decide)).1⟩

theorem step_agree (p : ProtocolState) (w : WebViewState) (h : QueuesAgree p w)
    (op : QueueOp) :
    (Protocol.step p op).2 = (WebView.step w op).2
    ∧ QueuesAgree (Protocol.step p op).1 (WebView.step w op).1 := by
  obtain ⟨h1, h2, h3, h4, h5, h6, h7⟩ := h
  cases op with
  | paramChange now pid v =>
    refine ⟨rfl, ?_⟩
    simp only [Protocol.step, WebView.step, Protocol.queueParamChange,
      WebView.queueParamUpdate, h2, h6, h7]
    by_cases hr : 0 ≤ pid ∧ pid < 256
    · by_cases hi : now - w.lastParamUpdate pid < w.updateInterval
      · simp only [if_pos hr, if_pos hi]
        exact ⟨h1, h2, h3, h4, h5, h6, h7⟩
      · simp only [if_pos hr, if_neg hi]
        exact ⟨h1, rfl, h3, h4, h5, rfl, rfl⟩
    · simp only [if_neg hr]
      exact ⟨h1, rfl, h3, h4, h5, rfl, rfl⟩
  | bulk ps =>
    exact ⟨rfl, h1, h2, by simp only [Protocol.step, WebView.step,
      Protocol.queueBulkParamUpdate, WebView.queueBulkParamUpdate]; rw [h3],
      h4, h5, h6, h7⟩
  | noteOn ch k vel =>
    exact ⟨rfl, h1, h2, h3, by simp only [Protocol.step, WebView.step,
      Protocol.queueNoteOn, WebView.queueNoteOn]; rw [h4], h5, h6, h7⟩
  | noteOff ch k =>
    exact ⟨rfl, h1, h2, h3, by simp only [Protocol.step, WebView.step,
      Protocol.queueNoteOff, WebView.queueNoteOff]; rw [h4], h5, h6, h7⟩
  | midiCC ch cc v =>
    exact ⟨rfl, h1, h2, h3, h4, by simp only [Protocol.step, WebView.step,
      Protocol.queueMidiCC, WebView.queueMidiCC]; rw [h5], h6, h7⟩
  | process =>
    by_cases hw : w.implWebview
    · constructor
      · simp [Protocol.step, WebView.step, Protocol.processQueue,
          WebView.processQueuedUpdates, h1, h2, h3, h4, h5, hw]
      · simp only [Protocol.step, WebView.step, Protocol.processQueue,
          WebView.processQueuedUpdates, h1, hw, Bool.not_true, Bool.false_eq_true,
          if_false]
        exact ⟨rfl, rfl, rfl, rfl, rfl, h6, h7⟩
    · have hw2 : w.implWebview = false := by
        revert hw; cases w.implWebview <;> simp
      constructor
      · simp [Protocol.step, WebView.step, Protocol.processQueue,
          WebView.processQueuedUpdates, h1, hw2]
      · simp only [Protocol.step, WebView.step, Protocol.processQueue,
          WebView.processQueuedUpdates, h1, hw2, Bool.not_false, if_true]
        exact ⟨h1, h2, h3, h4, h5, h6, h7⟩

/-- C3: the update-queue and throttle mechanism is shared between Protocol and
WebView in the sense of behavioural equivalence: from any pair of states that
agree on the queue members, the throttle data and the drain guard, every
identical sequence of queueParamChange / queueParamUpdate,
queueBulkParamUpdate, queueNoteOn, queueNoteOff, queueMidiCC and processQueue
/ processQueuedUpdates calls makes the same admission decisions, drains the
same events in the same order (the per-event JavaScript text being the only
difference between the two sides), and preserves the agreement. -/
theorem C3_queue_mechanism_equiv (ops : List QueueOp) (p : ProtocolState)
    (w : WebViewState) (h : QueuesAgree p w) :
    (Protocol.run p ops).2 = (WebView.run w ops).2
    ∧ QueuesAgree (Protocol.run p ops).1 (WebView.run w ops).1 := by
  induction ops generalizing p w with
  | nil => exact ⟨rfl, h⟩
  | cons op ops ih =>
    obtain ⟨ht, hs⟩ := step_agree p w h op
    obtain ⟨ht2, hs2⟩ := ih (Protocol.step p op).1 (WebView.step w op).1 hs
    refine ⟨?_, ?_⟩
    · simp only [Protocol.run, WebView.run]
      rw [ht, ht2]
    · simp only [Protocol.run, WebView.run]
      exact hs2

/-- C3 witness: a throttled-accept, a note-on and a drain produce the same
event trace on both sides from corresponding fresh states. -/
theorem C3_witness :
    QueuesAgree c3PState c3WState
    ∧ (Protocol.run c3PState c3Ops).2 = (WebView.run c3WState c3Ops).2 := by
  have hA : QueuesAgree c3PState c3WState := ⟨rfl, rfl, rfl, rfl, rfl, rfl, rfl⟩
  exact ⟨hA, (C3_queue_mechanism_equiv c3Ops c3PState c3WState hA).1⟩

/-- C7: the WebView lifecycle state machine is trivial: create on an already
created view returns true and changes nothing; after destroy, from any state,
isCreated is false, the parent-window association is cleared and the impl
webview is gone; show and hide return the current isCreated value and change
nothing. -/
theorem C7_lifecycle_trivial (s : WebViewState) :
    (s.created = true → WebView.create s = (true, s, []))
    ∧ WebView.isCreated (WebView.destroy s).1 = false
    ∧ (WebView.destroy s).1.parentWindow = none
    ∧ (WebView.destroy s).1.implWebview = false
    ∧ WebView.showView s = (WebView.isCreated s, s)
    ∧ WebView.hideView s = (WebView.isCreated s, s) := by
  exact ⟨fun h => by simp [WebView.create, h], rfl, rfl, rfl, rfl, rfl⟩

/-- C7 witness: create on a concrete created WebView is the identity
returning true. -/
theorem C7_witness :
    c7State.created = true ∧ WebView.create c7State = (true, c7State, []) :=
  ⟨rfl, (C7_lifecycle_trivial c7State).1 rfl⟩

/-- C8: every WebView operation guards the missing-impl-webview state and
fails benignly: setParent and setSize return false, getNativeHandle returns
null, and navigate, loadHtml, evaluateScript, bind, postMessage and
processQueuedUpdates return with the state unchanged and no native action
performed. -/
theorem C8_null_webview_guards (s : WebViewState) (h : s.implWebview = false)
    (parentHandle : Option Int) (width height : Nat)
    (url html js bindName msgType payload : List Char) :
    WebView.setParent s parentHandle = (false, s)
    ∧ WebView.setSize s width height = (false, s, [])
    ∧ WebView.getNativeHandle s = none
    ∧ WebView.navigate s url = (s, [])
    ∧ WebView.loadHtml s html = (s, [])
    ∧ WebView.evaluateScript s js = (s, [])
    ∧ WebView.bind s bindName = (s, [])
    ∧ WebView.postMessage s msgType payload = (s, [])
    ∧ WebView.processQueuedUpdates s = (s, []) := by
  refine ⟨?_, ?_, ?_, ?_, ?_, ?_, ?_, ?_, ?_⟩ <;>
    simp [WebView.setParent, WebView.setSize, WebView.getNativeHandle,
      WebView.navigate, WebView.loadHtml, WebView.evaluateScript, WebView.bind,
      WebView.postMessage, WebView.processQueuedUpdates, h]

/-- C8 witness: a fresh, never-created WebView refuses setParent even with a
non-null parent, drains nothing, and has no native handle. -/
theorem C8_witness :
    c8State.implWebview = false
    ∧ WebView.processQueuedUpdates c8State = (c8State, [])
    ∧ WebView.getNativeHandle c8State = none
    ∧ WebView.setParent c8State (some 5) = (false, c8State) := by
  have h := C8_null_webview_guards c8State rfl (some 5) 10 20 "u".data "h".data
    "j".data "b".data "t".data "p".data
  exact ⟨rfl, h.2.2.2.2.2.2.2.2, h.2.2.1, h.1⟩

/-- C10: adjustSize always returns true and clamps: when a minimum does not
exceed its maximum the returned dimension lies in that range; a dimension
already in range is returned unchanged; and because the minimum clamp runs
before the maximum clamp, a configured minimum above the maximum makes the
result equal to the maximum. -/
theorem C10_adjustSize_clamps (g : GuiHelperState) (w h : Nat) :
    (GuiHelper.adjustSize g w h).1 = true
    ∧ (g.minWidth ≤ g.maxWidth →
        g.minWidth ≤ (GuiHelper.adjustSize g w h).2.1
          ∧ (GuiHelper.adjustSize g w h).2.1 ≤ g.maxWidth)
    ∧ (g.minHeight ≤ g.maxHeight →
        g.minHeight ≤ (GuiHelper.adjustSize g w h).2.2
          ∧ (GuiHelper.adjustSize g w h).2.2 ≤ g.maxHeight)
    ∧ (g.minWidth ≤ w → w ≤ g.maxWidth → (GuiHelper.adjustSize g w h).2.1 = w)
    ∧ (g.minHeight ≤ h → h ≤ g.maxHeight → (GuiHelper.adjustSize g w h).2.2 = h)
    ∧ (g.maxWidth < g.minWidth → (GuiHelper.adjustSize g w h).2.1 = g.maxWidth)
    ∧ (g.maxHeight < g.minHeight → (GuiHelper.adjustSize g w h).2.2 = g.maxHeight) := by
  simp only [GuiHelper.adjustSize]
  refine ⟨trivial, ?_, ?_, ?_, ?_, ?_, ?_⟩ <;> intros <;> split_ifs <;> omega

/-- C10 witness: with the default bounds (200 minimum, 4096 maximum width), a
requested width of 100 is clamped into range. -/
theorem C10_witness :
    GuiHelperState.initial.minWidth ≤ GuiHelperState.initial.maxWidth
    ∧ (GuiHelperState.initial.minWidth
          ≤ (GuiHelper.adjustSize GuiHelperState.initial 100 5000).2.1
        ∧ (GuiHelper.adjustSize GuiHelperState.initial 100 5000).2.1
          ≤ GuiHelperState.initial.maxWidth) :=
  ⟨by decide, (C10_adjustSize_clamps GuiHelperState.initial 100 5000).2.1 (by decide)⟩

end ClaspGui
